import Mathlib

/-
Shallow embedding of the dmtcp init/utility core:
  src/dmtcp_init.cpp  (modified tini: signal configuration, supervisor loop, zombie reaping)
  src/util_init.cpp   (namespace attachment, stop/continue handoff, port-file writer)
Kernel-level effects (sigprocmask, sigaction, sigtimedwait, waitpid, setns, open,
kill, file writes) are modelled as explicit state passing or as emitted action
traces; a fatal JASSERT is modelled as the aborting branch of the result.
-/

/-! ## Signal numbers and errno values (Linux, x86-64) -/

def SIGCHLD : Nat := 17

def SIGCONT : Nat := 18

def SIGSTOP : Nat := 19

def SIGTERM : Nat := 15

def SIGTTIN : Nat := 21

def SIGTTOU : Nat := 22

def EAGAIN : Nat := 11

def EINTR : Nat := 4

def ECHILD : Nat := 10

/-! ## Signal configuration (dmtcp_init.cpp lines 22-52) -/

/-- A struct sigaction value; only the identity of the installed disposition
matters for the properties here, so it is one abstract tag. -/
structure Sigaction where
  handler : Nat
deriving DecidableEq

/-- The zeroed struct sigaction produced by memset 0 in dmtcp_init_main. -/
def zeroedSigaction : Sigaction := ⟨0⟩

/-- Process-wide signal state of the calling thread: the blocked mask and the
dispositions of SIGTTIN and SIGTTOU (the only dispositions this code touches). -/
structure SigState where
  mask : Nat → Bool
  ttin : Sigaction
  ttou : Sigaction

/-- signal_configuration_t from dmtcp_init.cpp lines 22-26: a saved mask and
two saved terminal-signal dispositions (through pointers in the C code). -/
structure signal_configuration_t where
  sigmask : Nat → Bool
  sigttin_action : Sigaction
  sigttou_action : Sigaction

/-- configure_signals (dmtcp_init.cpp lines 40-52):
sigemptyset and then sigaddset SIGCHLD build parent_sigset = set containing
SIGCHLD only; sigprocmask SIG_SETMASK installs it as the blocked mask and
writes the previous mask through sigconf.sigmask_ptr. The SIGTTIN/SIGTTOU
dispositions are neither read nor written. Each call is JASSERTed, but
sigemptyset, sigaddset and this sigprocmask cannot fail, so the function
always returns 0. Result: (new signal state, updated sigconf, parent_sigset). -/
def configure_signals (st : SigState) (sigconf : signal_configuration_t) :
    SigState × signal_configuration_t × (Nat → Bool) :=
  let parent_sigset : Nat → Bool := fun s => s == SIGCHLD
  (⟨parent_sigset, st.ttin, st.ttou⟩,
   { sigconf with sigmask := st.mask },
   parent_sigset)

/-- restore_signals (dmtcp_init.cpp lines 30-37): sigprocmask SIG_SETMASK with
the saved mask, then sigaction installing sigconf.sigttin_action for SIGTTIN
and sigconf.sigttou_action for SIGTTOU. -/
def restore_signals (_st : SigState) (sigconf : signal_configuration_t) : SigState :=
  { mask := sigconf.sigmask
    ttin := sigconf.sigttin_action
    ttou := sigconf.sigttou_action }

/-- A pre-existing signal state in which SIGTTIN has a non-default disposition. -/
def exampleSigState : SigState :=
  { mask := fun _ => false, ttin := ⟨1⟩, ttou := ⟨0⟩ }

/-- The configuration record as dmtcp_init_main builds it (lines 141-150):
both action fields memset to zero; the mask field is child_sigset, which is
never initialized before configure_signals runs, modelled here as all-clear. -/
def zeroedSigconf : signal_configuration_t :=
  { sigmask := fun _ => false
    sigttin_action := zeroedSigaction
    sigttou_action := zeroedSigaction }

/-! ## Wait statuses and the supervisor loop (dmtcp_init.cpp lines 54-173) -/

/-- The classification of a waitpid status word: WIFSTOPPED, WIFEXITED,
WIFSIGNALED, or anything else. -/
inductive WStatus where
  | stopped
  | exited (code : Nat)
  | signaled (sig : Nat)
  | other
deriving DecidableEq

/-- Outcome of one sigtimedwait call: either a signal was delivered
(si_signo recorded), or the call returned -1 with the given errno.
A timeout surfaces as errno EAGAIN, an interruption as errno EINTR. -/
inductive SigwaitOutcome where
  | delivered (signo : Nat)
  | err (errno : Nat)
deriving DecidableEq

/-- Result of wait_and_forward_signal: ok models return 0; fatal models the
JASSERT(false) abort paths (the unreachable return 1 after them included). -/
inductive WaitForwardResult where
  | ok
  | fatal
deriving DecidableEq

/-- wait_and_forward_signal (dmtcp_init.cpp lines 54-87): on a -1 return,
errno EAGAIN or EINTR break out harmlessly and 0 is returned, any other errno
is JASSERT(false) fatal; on a delivered signal, SIGCHLD is noted and 0 is
returned, any other signal is JASSERT(false) fatal. The child_pid argument of
the C function is unused there and dropped here. -/
def wait_and_forward_signal (o : SigwaitOutcome) : WaitForwardResult :=
  match o with
  | SigwaitOutcome.err e =>
    if e = EAGAIN then WaitForwardResult.ok
    else if e = EINTR then WaitForwardResult.ok
    else WaitForwardResult.fatal
  | SigwaitOutcome.delivered s =>
    if s = SIGCHLD then WaitForwardResult.ok
    else WaitForwardResult.fatal

/-- The kernel-side child table as seen by waitpid(-1, ..., WNOHANG): the
queue of currently reapable children (pid and status each) and whether any
children exist at all (false makes waitpid fail with ECHILD). -/
structure ProcTable where
  zombies : List (Nat × WStatus)
  hasChildren : Bool
deriving DecidableEq

/-- Result of one waitpid(-1, &status, WNOHANG) call. -/
inductive WaitResult where
  | reaped (pid : Nat) (status : WStatus)
  | noneReady
  | noChild
deriving DecidableEq

/-- waitpid(-1, &status, WNOHANG): reap the first queued zombie if any;
otherwise return 0 (noneReady) when children remain, or -1 with errno ECHILD
(noChild) when none exist. -/
def waitpid_nohang (pt : ProcTable) : WaitResult × ProcTable :=
  match pt with
  | ⟨[], false⟩ => (WaitResult.noChild, ⟨[], false⟩)
  | ⟨[], true⟩ => (WaitResult.noneReady, ⟨[], true⟩)
  | ⟨z :: zs, h⟩ => (WaitResult.reaped z.1 z.2, ⟨zs, h⟩)

/-- reap_zombies (dmtcp_init.cpp lines 89-127), the while(1) loop over
waitpid(-1, &current_status, WNOHANG), written as recursion on the zombie
queue that waitpid_nohang pops from:
  case -1 with errno ECHILD: JTRACE, break out and return 0;
  case 0: JTRACE, break out and return 0;
  default (a child was reaped): JNOTE its pid, then continue the loop.
The reaped pid is never compared with child_pid and current_status is never
stored through child_exitcode_ptr: the default case only logs. Both
parameters are therefore returned unchanged. Result: (value left in
child_exitcode, child table after the call). The error return 1 needs a
waitpid failure other than ECHILD, which the table model cannot produce. -/
def reap_zombies (child_pid : Int) (child_exitcode : Int) :
    ProcTable → Int × ProcTable
  | ⟨[], hasC⟩ => (child_exitcode, ⟨[], hasC⟩)
  | ⟨_ :: zs, hasC⟩ => reap_zombies child_pid child_exitcode ⟨zs, hasC⟩

/-- One iteration of the environment as dmtcp_init_main observes it: the
outcome of the current sigtimedwait round, and the reapable children queued at
the kernel when reap_zombies then runs. -/
abbrev InitTrace : Type := List (SigwaitOutcome × List (Nat × WStatus))

/-- The while(1) loop of dmtcp_init_main (dmtcp_init.cpp lines 157-172),
looping over a finite environment trace. child_exitcode is threaded through;
none means the loop is still running when the trace ends. A fatal
wait_and_forward_signal models the return 1 at line 160 (the JASSERT aborts
with a nonzero process status; either way the code of the child is not
returned).
After reaping, child_exitcode != -1 would return it - this is the normal
termination path of the C code. child_pid stays -1 for the whole run, as in
dmtcp_init_main (line 132), and is passed down as the C code does. -/
def dmtcp_init_loop (child_exitcode : Int) : InitTrace → Option Int
  | [] => none
  | (o, zs) :: rest =>
    match wait_and_forward_signal o with
    | WaitForwardResult.fatal => some 1
    | WaitForwardResult.ok =>
      let r := reap_zombies (-1) child_exitcode ⟨zs, true⟩
      if r.1 ≠ -1 then some r.1
      else dmtcp_init_loop r.1 rest

/-- dmtcp_init_main (dmtcp_init.cpp lines 129-173): configure_signals cannot
fail (see configure_signals above), so the body is the loop started with
child_exitcode = -1, the sentinel for "child has not exited". -/
def dmtcp_init_main (trace : InitTrace) : Option Int :=
  dmtcp_init_loop (-1) trace

/-! ## Namespace attachment and handoff (util_init.cpp lines 39-115) -/

/-- Recipient of a kill call inside Util.continueAsChild: the parent process
itself (parent_pid = getpid()) or the tracked child (child_pid). -/
inductive Target where
  | parent
  | child
deriving DecidableEq

/-- An observable kill(pid, sig) call emitted by Util.continueAsChild. -/
inductive ProcAction where
  | kill (t : Target) (sig : Nat)
deriving DecidableEq

/-- Return value of Util.continueAsChild: the exit status of the child via
WEXITSTATUS, or the final return EXIT_FAILURE. -/
inductive CAResult where
  | exitCode (c : Nat)
  | failure
deriving DecidableEq

namespace Util

/-- The while(1) loop of Util.continueAsChild (util_init.cpp lines 97-108)
over the successive statuses waitpid(child_pid, &status, WUNTRACED) reports
for the child. While the observed status is WIFSTOPPED, the parent sends
itself SIGSTOP and sends the child SIGCONT, and waits again; any other
status breaks out of the loop. Result: the kill calls made, and the status
that ended the loop (none when the supplied trace ends with the loop still
waiting). -/
def continueAsChildLoop : List WStatus → List ProcAction × Option WStatus
  | [] => ([], none)
  | WStatus.stopped :: rest =>
    let r := continueAsChildLoop rest
    (ProcAction.kill Target.parent SIGSTOP :: ProcAction.kill Target.child SIGCONT :: r.1,
     r.2)
  | s :: _ => ([], some s)

/-- Util.continueAsChild (util_init.cpp lines 90-115): after the loop, a
WIFEXITED status returns WEXITSTATUS; a WIFSIGNALED status makes the parent
send itself WTERMSIG(status) and then return EXIT_FAILURE; anything else
returns EXIT_FAILURE. Result: (kill calls made, return value; none when the
trace ends inside the loop). -/
def continueAsChild (trace : List WStatus) : List ProcAction × Option CAResult :=
  match continueAsChildLoop trace with
  | (acts, none) => (acts, none)
  | (acts, some (WStatus.exited c)) => (acts, some (CAResult.exitCode c))
  | (acts, some (WStatus.signaled n)) =>
    (acts ++ [ProcAction.kill Target.parent n], some CAResult.failure)
  | (acts, some WStatus.stopped) => (acts, some CAResult.failure)
  | (acts, some WStatus.other) => (acts, some CAResult.failure)

end Util

/-- The kill-call pattern of k stop/continue cycles: per observed stop,
SIGSTOP to the parent itself then SIGCONT to the child. -/
def stopContinueCycles : Nat → List ProcAction
  | 0 => []
  | Nat.succ k =>
    ProcAction.kill Target.parent SIGSTOP :: ProcAction.kill Target.child SIGCONT ::
      stopContinueCycles k

/-! ## NamespaceSet (util_init.cpp lines 39-87) -/

/-- The three Linux namespace kinds this code joins (CLONE_NEWUSER,
CLONE_NEWNS, CLONE_NEWPID). -/
inductive NsKind where
  | user
  | mnt
  | pid
deriving DecidableEq

namespace Util

/-- Util.NamespaceSet (util.h): three open descriptors onto
/proc/PID/ns/user, /proc/PID/ns/mnt and /proc/PID/ns/pid. -/
structure NamespaceSet where
  usr_fd : Nat
  mnt_fd : Nat
  pid_fd : Nat
deriving DecidableEq

/-- The NamespaceSet constructor (util_init.cpp lines 39-50) for a given pid,
against the open results for the three /proc/PID/ns entries (procNs k = none
when that entry cannot be opened). Each open is JASSERTed: the first failure
aborts the process, so no NamespaceSet value results (none); descriptors
opened before the failing one die with the process. On success all three
descriptors are held. -/
def NamespaceSet.construct (procNs : NsKind → Option Nat) : Option NamespaceSet :=
  match procNs NsKind.user with
  | none => none
  | some u =>
    match procNs NsKind.mnt with
    | none => none
    | some m =>
      match procNs NsKind.pid with
      | none => none
      | some p => some ⟨u, m, p⟩

/-- An observable setns(fd, kind) call. -/
inductive NsAction where
  | setns (fd : Nat) (kind : NsKind)
deriving DecidableEq

/-- Util.NamespaceSet.connect_usr_ns (util_init.cpp lines 60-65):
setns(usr_fd, CLONE_NEWUSER), JASSERT fatal on failure. env gives the
success of each setns call. Result: (the call made, whether it succeeded). -/
def NamespaceSet.connect_usr_ns (env : Nat → NsKind → Bool) (ns : NamespaceSet) :
    List NsAction × Bool :=
  ([NsAction.setns ns.usr_fd NsKind.user], env ns.usr_fd NsKind.user)

/-- Util.NamespaceSet.connect_mnt_ns (util_init.cpp lines 67-72):
setns(mnt_fd, CLONE_NEWNS), JASSERT fatal on failure. -/
def NamespaceSet.connect_mnt_ns (env : Nat → NsKind → Bool) (ns : NamespaceSet) :
    List NsAction × Bool :=
  ([NsAction.setns ns.mnt_fd NsKind.mnt], env ns.mnt_fd NsKind.mnt)

/-- Util.NamespaceSet.connect_pid_ns (util_init.cpp lines 74-79):
setns(pid_fd, CLONE_NEWPID), JASSERT fatal on failure. -/
def NamespaceSet.connect_pid_ns (env : Nat → NsKind → Bool) (ns : NamespaceSet) :
    List NsAction × Bool :=
  ([NsAction.setns ns.pid_fd NsKind.pid], env ns.pid_fd NsKind.pid)

/-- Util.NamespaceSet.connectns (util_init.cpp lines 52-58): connect_usr_ns,
then connect_mnt_ns, then connect_pid_ns. A failing JASSERT aborts the
process, so a failed join stops the sequence there: the trace contains no
later setns call and the result is false. -/
def NamespaceSet.connectns (env : Nat → NsKind → Bool) (ns : NamespaceSet) :
    List NsAction × Bool :=
  let r1 := NamespaceSet.connect_usr_ns env ns
  if r1.2 = false then (r1.1, false)
  else
    let r2 := NamespaceSet.connect_mnt_ns env ns
    if r2.2 = false then (r1.1 ++ r2.1, false)
    else
      let r3 := NamespaceSet.connect_pid_ns env ns
      (r1.1 ++ r2.1 ++ r3.1, r3.2)

end Util

/-- The full join sequence in source order: user, then mount, then pid. -/
def connectnsFullOrder (ns : Util.NamespaceSet) : List Util.NsAction :=
  [Util.NsAction.setns ns.usr_fd NsKind.user,
   Util.NsAction.setns ns.mnt_fd NsKind.mnt,
   Util.NsAction.setns ns.pid_fd NsKind.pid]

/-! ## Port-file writer (util_init.cpp lines 117-131) -/

/-- Observable file operations of Util.writeCoordPortToFile, in call order:
the open with O_CREAT, O_WRONLY and O_TRUNC, the JWARNING emitted when that
open fails, the writeAll of the decimal port text, the fsync and the close. -/
inductive FileOp where
  | openTrunc (path : String)
  | warnOpenFailed (path : String)
  | writeAllOp (path : String) (data : String)
  | fsyncOp (path : String)
  | closeOp (path : String)
deriving DecidableEq

namespace Util

/-- Util.writeCoordPortToFile (util_init.cpp lines 117-131): everything is
guarded by portFile being non-NULL with strlen(portFile) > 0; inside the
guard the file is opened for create/truncate (a failed open only emits a
JWARNING), the port is printed in decimal into port_buf, and writeAll, fsync
and close follow unconditionally. portFile = none models a NULL pointer;
openok gives the success of the open. Result: the file operations performed,
in order; the guard failing performs none at all. -/
def writeCoordPortToFile (port : Int) (portFile : Option String)
    (openok : String → Bool) : List FileOp :=
  match portFile with
  | none => []
  | some p =>
    if p.length > 0 then
      (if openok p then [FileOp.openTrunc p]
       else [FileOp.openTrunc p, FileOp.warnOpenFailed p]) ++
        [FileOp.writeAllOp p (toString port), FileOp.fsyncOp p, FileOp.closeOp p]
    else []

end Util

/-! ## Concrete inputs used by witnesses and counterexamples -/

/-- A signal state whose terminal-signal dispositions match the
configuration record below. -/
def witnessSigState : SigState := { mask := fun _ => true, ttin := ⟨4⟩, ttou := ⟨5⟩ }

/-- A configuration record whose action fields match witnessSigState. -/
def witnessSigconf : signal_configuration_t :=
  { sigmask := fun _ => false, sigttin_action := ⟨4⟩, sigttou_action := ⟨5⟩ }

/-- A setns environment in which every join succeeds. -/
def witnessEnv : Nat → NsKind → Bool := fun _ _ => true

/-- A namespace set with three distinct descriptors. -/
def witnessNs : Util.NamespaceSet := ⟨3, 4, 5⟩

/-- A /proc/PID/ns directory whose mnt entry cannot be opened. -/
def witnessProcNs : NsKind → Option Nat := fun k =>
  match k with
  | NsKind.user => some 7
  | NsKind.mnt => none
  | NsKind.pid => some 9

/-! ## Helper lemmas -/

/-- reap_zombies returns its child_exitcode argument unchanged: the loop body
never writes through child_exitcode_ptr. -/
theorem reap_zombies_fst (cp ec : Int) (zs : List (Nat × WStatus)) (hc : Bool) :
    (reap_zombies cp ec ⟨zs, hc⟩).1 = ec := by
  induction zs with
  | nil => simp [reap_zombies]
  | cons z rest ih => simpa [reap_zombies] using ih

/-- reap_zombies leaves a child table with an empty zombie queue and the
hasChildren flag it started with. -/
theorem reap_zombies_snd (cp ec : Int) (zs : List (Nat × WStatus)) (hc : Bool) :
    (reap_zombies cp ec ⟨zs, hc⟩).2 = ⟨[], hc⟩ := by
  induction zs with
  | nil => simp [reap_zombies]
  | cons z rest ih => simpa [reap_zombies] using ih

/-- Started with the sentinel -1, the supervisor loop either is still
looping when the trace ends, or returns 1 on the fatal path; the normal
termination check child_exitcode != -1 never fires. -/
theorem dmtcp_init_loop_stuck (tr : InitTrace) :
    dmtcp_init_loop (-1) tr = none ∨ dmtcp_init_loop (-1) tr = some 1 := by
  induction tr with
  | nil => exact Or.inl rfl
  | cons it rest ih =>
    obtain ⟨o, zs⟩ := it
    cases h : wait_and_forward_signal o with
    | fatal => exact Or.inr (by simp [dmtcp_init_loop, h])
    | ok =>
      have hr : (reap_zombies (-1) (-1) ⟨zs, true⟩).1 = -1 := reap_zombies_fst _ _ _ _
      simpa [dmtcp_init_loop, h, hr] using ih

/-- The stop/continue loop on a trace of k stops followed by a first
non-stopped status: k full cycles of kill calls, ending on that status. -/
theorem continueAsChildLoop_replicate (k : Nat) (s : WStatus)
    (hs : s ≠ WStatus.stopped) (rest : List WStatus) :
    Util.continueAsChildLoop (List.replicate k WStatus.stopped ++ s :: rest) =
      (stopContinueCycles k, some s) := by
  induction k with
  | zero =>
    cases s with
    | stopped => exact absurd rfl hs
    | exited c => rfl
    | signaled n => rfl
    | other => rfl
  | succ k ih =>
    simp [List.replicate_succ, Util.continueAsChildLoop, ih, stopContinueCycles]

/-! ## Claim theorems -/

/-- C2, counterexample: restore after configure is not the identity on the
pre-existing signal state. With the dispositions dmtcp_init_main supplies
(memset to zero) and a pre-existing state whose SIGTTIN disposition is
non-default, the round trip replaces that disposition with the zeroed one. -/
theorem configure_then_restore_loses_ttin :
    (restore_signals (configure_signals exampleSigState zeroedSigconf).1
        (configure_signals exampleSigState zeroedSigconf).2.1).ttin ≠
      exampleSigState.ttin := by
  decide

/-- C2, amended: configure_signals snapshots only the signal mask; it neither
reads nor alters the SIGTTIN/SIGTTOU dispositions. A subsequent
restore_signals reinstates exactly the original mask, but installs for
SIGTTIN and SIGTTOU whatever actions the configuration record carries, so the
round trip is the identity on the whole signal state only when those carried
actions already equal the original dispositions. -/
theorem configure_then_restore_mask_only (st : SigState) (conf : signal_configuration_t) :
    (restore_signals (configure_signals st conf).1 (configure_signals st conf).2.1).mask =
      st.mask ∧
    (restore_signals (configure_signals st conf).1 (configure_signals st conf).2.1).ttin =
      conf.sigttin_action ∧
    (restore_signals (configure_signals st conf).1 (configure_signals st conf).2.1).ttou =
      conf.sigttou_action ∧
    (conf.sigttin_action = st.ttin → conf.sigttou_action = st.ttou →
      restore_signals (configure_signals st conf).1 (configure_signals st conf).2.1 = st) := by
  refine ⟨rfl, rfl, rfl, fun h1 h2 => ?_⟩
  have hre : restore_signals (configure_signals st conf).1 (configure_signals st conf).2.1 =
      ⟨st.mask, conf.sigttin_action, conf.sigttou_action⟩ := rfl
  rw [hre, h1, h2]

/-- C2, witness for the amended theorem at a state whose dispositions match
the carried actions. -/
theorem configure_then_restore_mask_only_witness :
    restore_signals (configure_signals witnessSigState witnessSigconf).1
      (configure_signals witnessSigState witnessSigconf).2.1 = witnessSigState :=
  (configure_then_restore_mask_only witnessSigState witnessSigconf).2.2.2 rfl rfl

/-- C3, counterexample: configure_signals does not install the full mask.
After it runs, SIGTERM (a signal other than SIGCHLD) is still unblocked, so
not all signal delivery is blocked for the calling thread. -/
theorem configure_signals_leaves_sigterm_unblocked :
    ((configure_signals exampleSigState zeroedSigconf).1).mask SIGTERM = false ∧
      SIGTERM ≠ SIGCHLD := by
  decide

/-- C3, amended: after configure_signals returns, the installed blocked mask
contains exactly SIGCHLD: SIGCHLD delivery is blocked (so a raised SIGCHLD
stays pending until the synchronous sigtimedwait on parent_sigset observes
it, and is never lost), while every other signal stays unblocked. -/
theorem configure_signals_blocks_exactly_sigchld (st : SigState)
    (conf : signal_configuration_t) (s : Nat) :
    ((configure_signals st conf).1).mask s = true ↔ s = SIGCHLD := by
  simp [configure_signals]

/-- C3, witness: SIGCHLD itself is blocked after configure_signals. -/
theorem configure_signals_blocks_exactly_sigchld_witness :
    ((configure_signals exampleSigState zeroedSigconf).1).mask SIGCHLD = true :=
  (configure_signals_blocks_exactly_sigchld exampleSigState zeroedSigconf SIGCHLD).mpr rfl

/-- C1: refuted on the code. With the tracked child (pid 5) exiting normally
with status 7 and its SIGCHLD delivered, the supervisor loop reaps it and
keeps looping (none), instead of terminating with 7; and on every trace
whatsoever, dmtcp_init_main either never takes its normal termination path
(none) or returns the fatal-path value 1 - it can never return a reaped
exit status, because reap_zombies never compares the reaped pid with the
tracked pid and never stores the status. -/
theorem dmtcp_init_main_never_returns_child_exitcode :
    dmtcp_init_main [(SigwaitOutcome.delivered SIGCHLD, [(5, WStatus.exited 7)])] = none ∧
    ∀ tr : InitTrace, dmtcp_init_main tr = none ∨ dmtcp_init_main tr = some 1 := by
  constructor
  · simp [dmtcp_init_main, dmtcp_init_loop, wait_and_forward_signal, reap_zombies]
  · intro tr
    exact dmtcp_init_loop_stuck tr

/-- C4: for a child that stops exactly twice and then exits with code 3,
Util.continueAsChild performs exactly two stop/continue cycles, each sending
SIGSTOP to the parent itself and then SIGCONT to the child, and returns 3. -/
theorem continueAsChild_two_stops_exit3 :
    Util.continueAsChild [WStatus.stopped, WStatus.stopped, WStatus.exited 3] =
      ([ProcAction.kill Target.parent SIGSTOP, ProcAction.kill Target.child SIGCONT,
        ProcAction.kill Target.parent SIGSTOP, ProcAction.kill Target.child SIGCONT],
       some (CAResult.exitCode 3)) := by
  decide

/-- C5: for every child terminated by signal n (after any number k of stop
events), Util.continueAsChild ends by sending the parent process that same
signal n, and returns EXIT_FAILURE rather than surfacing n as a status. -/
theorem continueAsChild_reraises_terminating_signal (k n : Nat) (rest : List WStatus) :
    Util.continueAsChild (List.replicate k WStatus.stopped ++ WStatus.signaled n :: rest) =
      (stopContinueCycles k ++ [ProcAction.kill Target.parent n],
       some CAResult.failure) := by
  have h := continueAsChildLoop_replicate k (WStatus.signaled n) (by simp) rest
  simp [Util.continueAsChild, h]

/-- C6: one invocation of reap_zombies drains every reapable child: whatever
the starting child table, the table it leaves has an empty zombie queue, and
the next waitpid reports nothing reapable (0, or -1 with ECHILD), so no
reapable child remains when the loop re-blocks. -/
theorem reap_zombies_drains_all (cp ec : Int) (pt : ProcTable) :
    (reap_zombies cp ec pt).2.zombies = [] ∧
    ((waitpid_nohang (reap_zombies cp ec pt).2).1 = WaitResult.noneReady ∨
      (waitpid_nohang (reap_zombies cp ec pt).2).1 = WaitResult.noChild) := by
  obtain ⟨zs, hc⟩ := pt
  rw [reap_zombies_snd]
  cases hc <;> simp [waitpid_nohang]

/-- C7: wait_and_forward_signal succeeds (returns 0, a harmless empty
iteration) exactly when sigtimedwait times out (EAGAIN), is interrupted
(EINTR), or delivers SIGCHLD; every other delivered signal and every other
sigtimedwait failure is the fatal JASSERT path. -/
theorem wait_and_forward_signal_ok_iff (o : SigwaitOutcome) :
    wait_and_forward_signal o = WaitForwardResult.ok ↔
      (o = SigwaitOutcome.err EAGAIN ∨ o = SigwaitOutcome.err EINTR ∨
        o = SigwaitOutcome.delivered SIGCHLD) := by
  cases o with
  | delivered s =>
    by_cases h : s = SIGCHLD <;> simp [wait_and_forward_signal, h]
  | err e =>
    by_cases h1 : e = EAGAIN
    · simp [wait_and_forward_signal, h1]
    · by_cases h2 : e = EINTR <;> simp [wait_and_forward_signal, h1, h2]

/-- C7, witness: a timed-out wait is a harmless empty iteration. -/
theorem wait_and_forward_signal_ok_iff_witness :
    wait_and_forward_signal (SigwaitOutcome.err EAGAIN) = WaitForwardResult.ok :=
  (wait_and_forward_signal_ok_iff (SigwaitOutcome.err EAGAIN)).mpr (Or.inl rfl)

/-- C8: every run of Util.NamespaceSet.connectns performs its setns calls as
a prefix of the fixed sequence user namespace, mount namespace, PID
namespace; it succeeds exactly when all three joins succeed, and then the
full sequence in exactly that order was performed; a failing join is fatal,
so nothing after it runs and no other order is ever observable. -/
theorem connectns_fixed_order (env : Nat → NsKind → Bool) (ns : Util.NamespaceSet) :
    (∃ n, (Util.NamespaceSet.connectns env ns).1 = List.take n (connectnsFullOrder ns)) ∧
    ((Util.NamespaceSet.connectns env ns).2 = true ↔
      (env ns.usr_fd NsKind.user = true ∧ env ns.mnt_fd NsKind.mnt = true ∧
        env ns.pid_fd NsKind.pid = true)) ∧
    ((Util.NamespaceSet.connectns env ns).2 = true →
      (Util.NamespaceSet.connectns env ns).1 = connectnsFullOrder ns) := by
  cases h1 : env ns.usr_fd NsKind.user with
  | false =>
    refine ⟨⟨1, ?_⟩, ?_, ?_⟩ <;>
      simp [Util.NamespaceSet.connectns, Util.NamespaceSet.connect_usr_ns,
        Util.NamespaceSet.connect_mnt_ns, Util.NamespaceSet.connect_pid_ns,
        connectnsFullOrder, h1]
  | true =>
    cases h2 : env ns.mnt_fd NsKind.mnt with
    | false =>
      refine ⟨⟨2, ?_⟩, ?_, ?_⟩ <;>
        simp [Util.NamespaceSet.connectns, Util.NamespaceSet.connect_usr_ns,
          Util.NamespaceSet.connect_mnt_ns, Util.NamespaceSet.connect_pid_ns,
          connectnsFullOrder, h1, h2]
    | true =>
      refine ⟨⟨3, ?_⟩, ?_, ?_⟩ <;>
        simp [Util.NamespaceSet.connectns, Util.NamespaceSet.connect_usr_ns,
          Util.NamespaceSet.connect_mnt_ns, Util.NamespaceSet.connect_pid_ns,
          connectnsFullOrder, h1, h2]

/-- C8, witness: with every join succeeding, the calls made are exactly
user, mount, pid in that order. -/
theorem connectns_fixed_order_witness :
    (Util.NamespaceSet.connectns witnessEnv witnessNs).1 = connectnsFullOrder witnessNs :=
  (connectns_fixed_order witnessEnv witnessNs).2.2 rfl

/-- C9: the NamespaceSet constructor is all-or-nothing. If any of the three
/proc/PID/ns entries cannot be opened, the construction is fatal and yields
no NamespaceSet at all (the process aborts, so no partially-open set with
one or two descriptors ever results); and any set it does return holds the
descriptors of all three successfully opened entries. -/
theorem namespaceSet_construct_all_or_nothing (procNs : NsKind → Option Nat) :
    ((procNs NsKind.user = none ∨ procNs NsKind.mnt = none ∨ procNs NsKind.pid = none) →
      Util.NamespaceSet.construct procNs = none) ∧
    (∀ ns : Util.NamespaceSet, Util.NamespaceSet.construct procNs = some ns →
      procNs NsKind.user = some ns.usr_fd ∧ procNs NsKind.mnt = some ns.mnt_fd ∧
        procNs NsKind.pid = some ns.pid_fd) := by
  cases hu : procNs NsKind.user with
  | none =>
    refine ⟨fun _ => ?_, fun ns hns => ?_⟩ <;>
      simp_all [Util.NamespaceSet.construct]
  | some u =>
    cases hm : procNs NsKind.mnt with
    | none =>
      refine ⟨fun _ => ?_, fun ns hns => ?_⟩ <;>
        simp_all [Util.NamespaceSet.construct]
    | some m =>
      cases hp : procNs NsKind.pid with
      | none =>
        refine ⟨fun _ => ?_, fun ns hns => ?_⟩ <;>
          simp_all [Util.NamespaceSet.construct]
      | some p =>
        refine ⟨fun h => ?_, fun ns hns => ?_⟩
        · rcases h with h | h | h <;> simp_all
        · simp only [Util.NamespaceSet.construct, hu, hm, hp, Option.some.injEq] at hns
          subst hns
          exact ⟨rfl, rfl, rfl⟩

/-- C9, witness: with the mnt entry missing, construction yields no set. -/
theorem namespaceSet_construct_all_or_nothing_witness :
    Util.NamespaceSet.construct witnessProcNs = none :=
  (namespaceSet_construct_all_or_nothing witnessProcNs).1 (Or.inr (Or.inl rfl))

/-- C10: with a NULL or empty destination path, Util.writeCoordPortToFile
performs no file operation whatsoever - no open, create, truncate, write,
fsync, close, and no warning - for every port value and every open
environment. -/
theorem writeCoordPortToFile_no_path_no_ops (port : Int) (openok : String → Bool) :
    Util.writeCoordPortToFile port none openok = [] ∧
    Util.writeCoordPortToFile port (some "") openok = [] :=
  ⟨rfl, rfl⟩
